import Mathlib

/-!
Shallow embedding of the Dastan-e-Urdu library application: the data model
from `types.ts` and the synchronization / generation handlers of the main
application component (`refreshLibrary`, `handleSyncUpdate`, `persistLibrary`,
`handleChapterPlay` and the play button's click guard).

External services (the storage providers and the audio generation service)
are modelled by passing their outcome for the single request a handler may
issue as an explicit argument; each handler additionally reports which
requests it issued, so that "no network access" claims are statements about
the returned request log.
-/

namespace Dastan

/-- Chapter record from `types.ts`: id, title, text, optional audio url and
duration. -/
structure Chapter where
  id : String
  title : String
  text : String
  audioUrl : Option String := Option.none
  duration : Option Nat := Option.none
deriving DecidableEq

/-- Book record from `types.ts`. -/
structure Book where
  id : String
  title : String
  author : String
  coverImage : Option String := Option.none
  chapters : List Chapter := []
  createdAt : Nat := 0
deriving DecidableEq

/-- Processing status enum from `types.ts`. -/
inductive ProcessingStatus where
  | IDLE
  | EXTRACTING
  | SPLITTING
  | GENERATING_AUDIO
  | COMPLETED
  | ERROR
deriving DecidableEq

/-- Sync provider union type from `types.ts`: 'public' | 'github' | 'none'. -/
inductive SyncProvider where
  | public
  | github
  | none
deriving DecidableEq

/-- SyncState record from `types.ts`. -/
structure SyncState where
  provider : SyncProvider
  roomId : Option String
  githubToken : Option String
  gistId : Option String
  lastSynced : Option Nat
  isSyncing : Bool
deriving DecidableEq

/-- The four localStorage keys the component reads and writes. -/
structure LocalStore where
  sync_provider : Option String := Option.none
  sync_room_id : Option String := Option.none
  sync_github_token : Option String := Option.none
  sync_gist_id : Option String := Option.none
deriving DecidableEq

/-- The component state of the App: `books`, `syncState`, `hasLoadedInitially`,
`selectedBook`, `activeChapter`, `status`, `showSyncModal`, plus the
localStorage snapshot. -/
structure AppState where
  books : List Book
  syncState : SyncState
  hasLoadedInitially : Bool
  selectedBook : Option Book
  activeChapter : Option Chapter
  status : ProcessingStatus
  showSyncModal : Bool
  store : LocalStore
deriving DecidableEq

/-- JavaScript truthiness of a nullable string (`null` and `""` are falsy). -/
def truthy : Option String → Bool
  | Option.none => false
  | Option.some s => s != ""

/-! ### refreshLibrary (pull path) -/

/-- A pull request issued to `SyncService`: either `pullFromGitHub(token, gistId)`
or `pullFromPublic(roomId || undefined)`. -/
inductive PullReq where
  | gitHub (token : String) (gist : String)
  | publicRoom (room : Option String)
deriving DecidableEq

/-- Outcome of the awaited pull: a present snapshot, a null/absent result, an
`UNAUTHORIZED` rejection, or any other transient failure. -/
inductive PullResult where
  | present (books : List Book)
  | absent
  | unauthorized
  | netError
deriving DecidableEq

/-- The request `refreshLibrary` issues for a given sync state (lines 51-55):
the GitHub pull when the provider is `github` and both token and gist id are
truthy; otherwise the public pull when the provider is `public`; otherwise no
request at all (`remoteBooks` stays null). -/
def pullRequestOf (ss : SyncState) : Option PullReq :=
  if ss.provider = SyncProvider.github ∧ truthy ss.githubToken ∧ truthy ss.gistId then
    Option.some (PullReq.gitHub (ss.githubToken.getD "") (ss.gistId.getD ""))
  else if ss.provider = SyncProvider.public then
    Option.some (PullReq.publicRoom (if truthy ss.roomId then ss.roomId else Option.none))
  else
    Option.none

/-- The synchronous prefix of `refreshLibrary` up to its await point
(lines 45-55): set `isSyncing` unless the call is silent, and compute the
pull request it is about to issue. -/
def refreshStart (s : AppState) (silent : Bool) : AppState × Option PullReq :=
  (if silent then s else
    { s with syncState := { s.syncState with isSyncing := true } },
   pullRequestOf s.syncState)

/-- The continuation of `refreshLibrary` after the await (lines 57-70),
applied to whatever the component state is at completion time. If a request
was issued and returned a snapshot, the books are replaced wholesale,
`lastSynced` is stamped and the initial-load flag set; a null/absent result
(or no request at all) only clears `isSyncing`; `UNAUTHORIZED` downgrades
the provider to `none`; any other error only clears `isSyncing`. -/
def refreshComplete (s : AppState) (req : Option PullReq) (res : PullResult)
    (now : Nat) : AppState :=
  match req with
  | Option.none =>
    { s with syncState := { s.syncState with isSyncing := false } }
  | Option.some _ =>
    match res with
    | PullResult.present bs =>
      { s with books := bs,
               syncState := { s.syncState with lastSynced := Option.some now,
                                               isSyncing := false },
               hasLoadedInitially := true }
    | PullResult.absent =>
      { s with syncState := { s.syncState with isSyncing := false } }
    | PullResult.unauthorized =>
      { s with syncState := { s.syncState with provider := SyncProvider.none,
                                               isSyncing := false } }
    | PullResult.netError =>
      { s with syncState := { s.syncState with isSyncing := false } }

/-- A whole `refreshLibrary` cycle with no interleaved state change: start,
then complete against the same state. -/
def refreshLibrary (s : AppState) (silent : Bool) (res : PullResult)
    (now : Nat) : AppState × Option PullReq :=
  let sp := refreshStart s silent
  (refreshComplete sp.fst sp.snd res now, sp.snd)

/-! ### handleSyncUpdate (reconfiguration) -/

/-- A `Partial<SyncState>`: the fields present in the update object. -/
structure SyncStatePatch where
  provider : Option SyncProvider := Option.none
  roomId : Option (Option String) := Option.none
  githubToken : Option (Option String) := Option.none
  gistId : Option (Option String) := Option.none
  lastSynced : Option (Option Nat) := Option.none
  isSyncing : Option Bool := Option.none
deriving DecidableEq

/-- JavaScript object spread `{ ...syncState, ...newState }`: a field present
in the patch overrides the old value. -/
def applyPatch (ss : SyncState) (p : SyncStatePatch) : SyncState :=
  { provider := p.provider.getD ss.provider,
    roomId := p.roomId.getD ss.roomId,
    githubToken := p.githubToken.getD ss.githubToken,
    gistId := p.gistId.getD ss.gistId,
    lastSynced := p.lastSynced.getD ss.lastSynced,
    isSyncing := p.isSyncing.getD ss.isSyncing }

/-- The string stored under `sync_provider` for each provider variant. -/
def providerKey : SyncProvider → String
  | SyncProvider.public => "public"
  | SyncProvider.github => "github"
  | SyncProvider.none => "none"

/-- `handleSyncUpdate` (lines 80-95): merge the patch into the sync state,
persist to localStorage (provider always, since the enum strings are truthy;
room id only when truthy; token and gist id set when truthy, removed
otherwise), close the modal, clear the initial-load flag, and schedule a
`refreshLibrary()` call 100ms later. The returned Bool records that a pull
was scheduled. -/
def handleSyncUpdate (s : AppState) (p : SyncStatePatch) : AppState × Bool :=
  let updated := applyPatch s.syncState p
  let st0 := { s.store with sync_provider := Option.some (providerKey updated.provider) }
  let st1 := if truthy updated.roomId then { st0 with sync_room_id := updated.roomId } else st0
  let st2 := if truthy updated.githubToken then
      { st1 with sync_github_token := updated.githubToken }
    else
      { st1 with sync_github_token := Option.none }
  let st3 := if truthy updated.gistId then
      { st2 with sync_gist_id := updated.gistId }
    else
      { st2 with sync_gist_id := Option.none }
  ({ s with syncState := updated, store := st3,
            showSyncModal := false, hasLoadedInitially := false }, true)

/-! ### persistLibrary (push path) -/

/-- A push request issued to `SyncService`: `pushToGitHub` or `pushToPublic`,
with the snapshot being pushed. -/
inductive PushReq where
  | gitHub (books : List Book) (token : String) (gist : String)
  | publicRoom (books : List Book) (room : String)
deriving DecidableEq

/-- Outcome of the awaited push. -/
inductive PushResult where
  | ok
  | unauthorized
  | netError
deriving DecidableEq

/-- The request `persistLibrary` issues for a given sync state (lines 100-104):
the GitHub push when the provider is `github` with truthy token and gist id,
else the public push when the provider is `public` with a truthy room id,
else none. -/
def pushRequestOf (ss : SyncState) (bs : List Book) : Option PushReq :=
  if ss.provider = SyncProvider.github ∧ truthy ss.githubToken ∧ truthy ss.gistId then
    Option.some (PushReq.gitHub bs (ss.githubToken.getD "") (ss.gistId.getD ""))
  else if ss.provider = SyncProvider.public ∧ truthy ss.roomId then
    Option.some (PushReq.publicRoom bs (ss.roomId.getD ""))
  else
    Option.none

/-- Result of a `persistLibrary` call: the new component state, the push
request issued (if any), and whether the `UNAUTHORIZED` alert fired. -/
structure PushOutcome where
  state : AppState
  request : Option PushReq
  alerted : Bool
deriving DecidableEq

/-- `persistLibrary` (lines 98-112): issue at most one push; when the push
succeeds, or when no push was issued at all, stamp `lastSynced` with the
current time; on `UNAUTHORIZED` alert and reopen the sync modal (the
provider is not changed); any other failure is swallowed. -/
def persistLibrary (s : AppState) (updatedBooks : List Book) (res : PushResult)
    (now : Nat) : PushOutcome :=
  match pushRequestOf s.syncState updatedBooks with
  | Option.none =>
    { state := { s with syncState := { s.syncState with lastSynced := Option.some now } },
      request := Option.none, alerted := false }
  | Option.some r =>
    match res with
    | PushResult.ok =>
      { state := { s with syncState := { s.syncState with lastSynced := Option.some now } },
        request := Option.some r, alerted := false }
    | PushResult.unauthorized =>
      { state := { s with showSyncModal := true },
        request := Option.some r, alerted := true }
    | PushResult.netError =>
      { state := s, request := Option.some r, alerted := false }

/-! ### handleChapterPlay (generation cache) -/

/-- Outcome of the awaited `GeminiService.generateAudio` call. -/
inductive GenResult where
  | ok (url : String)
  | genError
deriving DecidableEq

/-- The inner chapter map of `handleChapterPlay` (lines 168-170): set the
audio url on the chapter whose id matches, leave every other chapter as is. -/
def attachChapters (chs : List Chapter) (chapterId url : String) : List Chapter :=
  chs.map fun c =>
    if c.id = chapterId then { c with audioUrl := Option.some url } else c

/-- The books map of `handleChapterPlay` (lines 166-176): when a book is
selected and a book's id matches the selected book's id, rewrite its chapters
through `attachChapters`; every other book (and everything when no book is
selected) is returned unchanged. -/
def attachAudioBooks (books : List Book) (sel : Option Book)
    (chapterId url : String) : List Book :=
  books.map fun b =>
    match sel with
    | Option.some sb =>
      if b.id = sb.id then { b with chapters := attachChapters b.chapters chapterId url }
      else b
    | Option.none => b

/-- The `setSelectedBook(updatedBook)` calls fired inside the map: one per
matching book, the last one winning; the selection is unchanged when no book
matches (or none is selected). -/
def selectedAfterAttach (books : List Book) (sel : Option Book)
    (chapterId url : String) : Option Book :=
  match sel with
  | Option.none => Option.none
  | Option.some sb =>
    match ((attachAudioBooks books sel chapterId url).filter
        (fun b => b.id == sb.id)).getLast? with
    | Option.some b => Option.some b
    | Option.none => Option.some sb

/-- Result of a `handleChapterPlay` call: the new component state, the list of
generation requests issued to the audio service (each a text/voice pair), and
whether the failure alert fired. -/
structure PlayOutcome where
  state : AppState
  genRequests : List (String × String)
  alerted : Bool
deriving DecidableEq

/-- `handleChapterPlay` (lines 155-193). The guard `if (chapter.audioUrl)` is
a JavaScript truthiness test, so a missing url and the empty string both fall
through. When the chapter already carries a truthy audio url, only the active
chapter is set and the function returns — no status change, no generation
request. Otherwise the status passes through `GENERATING_AUDIO`, exactly one
generation request is issued for this chapter's text and the selected voice,
and on success the result is attached by id match, the active chapter
refreshed from the updated books, and the status reset to `IDLE`; on failure
the status becomes `ERROR`, an alert fires, and nothing else changes. -/
def handleChapterPlay (s : AppState) (chapter : Chapter) (voice : String)
    (gen : GenResult) : PlayOutcome :=
  if truthy chapter.audioUrl then
    { state := { s with activeChapter := Option.some chapter },
      genRequests := [], alerted := false }
  else
    match gen with
    | GenResult.ok url =>
      let updatedBooks := attachAudioBooks s.books s.selectedBook chapter.id url
      let currentChapter :=
        (updatedBooks.find? fun b =>
            match s.selectedBook with
            | Option.some sb => b.id == sb.id
            | Option.none => false).bind
          fun b => b.chapters.find? fun c => c.id == chapter.id
      { state := { s with
          books := updatedBooks,
          selectedBook := selectedAfterAttach s.books s.selectedBook chapter.id url,
          activeChapter := match currentChapter with
                           | Option.some c => Option.some c
                           | Option.none => s.activeChapter,
          status := ProcessingStatus.IDLE },
        genRequests := [(chapter.text, voice)], alerted := false }
    | GenResult.genError =>
      { state := { s with status := ProcessingStatus.ERROR },
        genRequests := [(chapter.text, voice)], alerted := true }

/-- The chapter play button (lines 313-315) carries
`disabled={status === ProcessingStatus.GENERATING_AUDIO}`: while a generation
is in flight, a click on any chapter's play button fires no handler at all;
otherwise it invokes `handleChapterPlay`. -/
def chapterPlayButtonClick (s : AppState) (chapter : Chapter) (voice : String)
    (gen : GenResult) : PlayOutcome :=
  if s.status = ProcessingStatus.GENERATING_AUDIO then
    { state := s, genRequests := [], alerted := false }
  else
    handleChapterPlay s chapter voice gen

/-! ### Sample states for concrete evaluations -/

/-- A sync state on the public provider with a room id and no credentials. -/
def syncPublic : SyncState :=
  { provider := SyncProvider.public
    roomId := Option.some "dastan_internal_shared_v2_9912"
    githubToken := Option.none
    gistId := Option.none
    lastSynced := Option.none
    isSyncing := false }

/-- A sync state on the github provider with truthy token and gist id. -/
def syncGithub : SyncState :=
  { provider := SyncProvider.github
    roomId := Option.some "dastan_internal_shared_v2_9912"
    githubToken := Option.some "tok"
    gistId := Option.some "gist1"
    lastSynced := Option.none
    isSyncing := false }

/-- A baseline app state: empty library, public provider, idle status. -/
def app0 : AppState :=
  { books := []
    syncState := syncPublic
    hasLoadedInitially := false
    selectedBook := Option.none
    activeChapter := Option.none
    status := ProcessingStatus.IDLE
    showSyncModal := false
    store := {} }

/-- A chapter that already carries an audio reference. -/
def cachedChapter : Chapter :=
  { id := "c1", title := "bab", text := "matn", audioUrl := Option.some "blob:a" }

/-- A chapter with no audio reference yet. -/
def freshChapter : Chapter :=
  { id := "c2", title := "bab2", text := "matn2" }

/-! ### Claim theorems -/

/-- Claim C1: for a chapter whose audio reference is already set — set in the
program's sense, a truthy url, so the empty string does not count —
`handleChapterPlay` issues zero generation requests, leaves the book list and
sync state untouched, makes that chapter the active one immediately, and a
second call behaves identically — the same chapter (hence the same audio
reference) is used both times. -/
theorem chapterPlay_idempotent_when_cached (s : AppState) (ch : Chapter)
    (u voice : String) (g1 g2 : GenResult) (h : ch.audioUrl = Option.some u)
    (hu : u ≠ "") :
    (handleChapterPlay s ch voice g1).genRequests = [] ∧
    (handleChapterPlay s ch voice g1).state.books = s.books ∧
    (handleChapterPlay s ch voice g1).state.syncState = s.syncState ∧
    (handleChapterPlay s ch voice g1).state.status = s.status ∧
    (handleChapterPlay s ch voice g1).state.activeChapter = Option.some ch ∧
    (handleChapterPlay (handleChapterPlay s ch voice g1).state ch voice g2).genRequests = [] ∧
    (handleChapterPlay (handleChapterPlay s ch voice g1).state ch voice g2).state.activeChapter
      = Option.some ch := by
  simp [handleChapterPlay, truthy, h, hu]

/-- Witness for C1 at a concrete cached chapter. -/
theorem chapterPlay_idempotent_when_cached_witness :
    (handleChapterPlay app0 cachedChapter "Kore" GenResult.genError).genRequests = [] ∧
    (handleChapterPlay app0 cachedChapter "Kore" GenResult.genError).state.books = app0.books ∧
    (handleChapterPlay app0 cachedChapter "Kore" GenResult.genError).state.activeChapter
      = Option.some cachedChapter :=
  ⟨(chapterPlay_idempotent_when_cached app0 cachedChapter "blob:a" "Kore"
      GenResult.genError GenResult.genError rfl (by decide)).1,
   (chapterPlay_idempotent_when_cached app0 cachedChapter "blob:a" "Kore"
      GenResult.genError GenResult.genError rfl (by decide)).2.1,
   (chapterPlay_idempotent_when_cached app0 cachedChapter "blob:a" "Kore"
      GenResult.genError GenResult.genError rfl (by decide)).2.2.2.2.1⟩

/-- Claim C2: while the global status is `GENERATING_AUDIO`, the play button
is disabled, so a second generation request through the UI is rejected: the
click fires no handler, issues zero calls to the audio generation service,
and leaves the state untouched. -/
theorem secondGenerate_rejected_while_generating (s : AppState) (ch : Chapter)
    (voice : String) (gen : GenResult)
    (h : s.status = ProcessingStatus.GENERATING_AUDIO) :
    (chapterPlayButtonClick s ch voice gen).genRequests = [] ∧
    (chapterPlayButtonClick s ch voice gen).state = s := by
  simp [chapterPlayButtonClick, h]

/-- Witness for C2: a click on a fresh chapter while a generation is in
flight issues no generation request. -/
theorem secondGenerate_rejected_while_generating_witness :
    (chapterPlayButtonClick { app0 with status := ProcessingStatus.GENERATING_AUDIO }
      freshChapter "Puck" (GenResult.ok "blob:b")).genRequests = [] ∧
    (chapterPlayButtonClick { app0 with status := ProcessingStatus.GENERATING_AUDIO }
      freshChapter "Puck" (GenResult.ok "blob:b")).state
      = { app0 with status := ProcessingStatus.GENERATING_AUDIO } :=
  secondGenerate_rejected_while_generating
    { app0 with status := ProcessingStatus.GENERATING_AUDIO }
    freshChapter "Puck" (GenResult.ok "blob:b") rfl

/-- Claim C9: when the generation call fails, `handleChapterPlay` sets the
status to `ERROR`, leaves the book list (hence every chapter's audio
reference), the selection, the active chapter and the sync state untouched,
fires the user-visible alert, and issued exactly one generation request —
no automatic retry. -/
theorem generationFailure_isolated (s : AppState) (ch : Chapter) (voice : String)
    (h : ch.audioUrl = Option.none) :
    (handleChapterPlay s ch voice GenResult.genError).state.status
      = ProcessingStatus.ERROR ∧
    (handleChapterPlay s ch voice GenResult.genError).state.books = s.books ∧
    (handleChapterPlay s ch voice GenResult.genError).state.selectedBook = s.selectedBook ∧
    (handleChapterPlay s ch voice GenResult.genError).state.activeChapter = s.activeChapter ∧
    (handleChapterPlay s ch voice GenResult.genError).state.syncState = s.syncState ∧
    (handleChapterPlay s ch voice GenResult.genError).alerted = true ∧
    (handleChapterPlay s ch voice GenResult.genError).genRequests = [(ch.text, voice)] := by
  simp [handleChapterPlay, truthy, h]

/-- Witness for C9 at a concrete fresh chapter. -/
theorem generationFailure_isolated_witness :
    (handleChapterPlay app0 freshChapter "Kore" GenResult.genError).state.status
      = ProcessingStatus.ERROR ∧
    (handleChapterPlay app0 freshChapter "Kore" GenResult.genError).state.books
      = app0.books ∧
    (handleChapterPlay app0 freshChapter "Kore" GenResult.genError).genRequests
      = [(freshChapter.text, "Kore")] :=
  ⟨(generationFailure_isolated app0 freshChapter "Kore" rfl).1,
   (generationFailure_isolated app0 freshChapter "Kore" rfl).2.1,
   (generationFailure_isolated app0 freshChapter "Kore" rfl).2.2.2.2.2.2⟩

/-- Claim C3: a pull cycle whose result is absent — a null return from the
provider, or no request at all, which covers the `none` provider since it
never issues one — leaves the book list, the last-synced timestamp, the
provider and the status exactly as they were, and clears the in-flight flag;
in particular the `none` provider issues no request. -/
theorem pullAbsent_leavesLibraryUntouched (s : AppState) (silent : Bool)
    (res : PullResult) (now : Nat)
    (h : res = PullResult.absent ∨ pullRequestOf s.syncState = Option.none) :
    (refreshLibrary s silent res now).fst.books = s.books ∧
    (refreshLibrary s silent res now).fst.syncState.lastSynced
      = s.syncState.lastSynced ∧
    (refreshLibrary s silent res now).fst.syncState.provider
      = s.syncState.provider ∧
    (refreshLibrary s silent res now).fst.syncState.isSyncing = false ∧
    (refreshLibrary s silent res now).fst.status = s.status ∧
    (s.syncState.provider = SyncProvider.none →
      pullRequestOf s.syncState = Option.none) := by
  have hnone : s.syncState.provider = SyncProvider.none →
      pullRequestOf s.syncState = Option.none := by
    intro hp
    simp [pullRequestOf, hp]
  rcases h with h | h
  · subst h
    cases hreq : pullRequestOf s.syncState <;>
      cases silent <;>
        simp [refreshLibrary, refreshStart, refreshComplete, hreq, hnone] <;>
        (intro hp; rw [hnone hp] at hreq; cases hreq)
  · cases silent <;>
      simp [refreshLibrary, refreshStart, refreshComplete, h, hnone]

/-- Witness for C3: a silent pull on the `none` provider issues no request
and leaves the empty library untouched. -/
theorem pullAbsent_leavesLibraryUntouched_witness :
    (refreshLibrary
        { app0 with syncState := { syncPublic with provider := SyncProvider.none } }
        true PullResult.absent 42).fst.books = [] ∧
    pullRequestOf { syncPublic with provider := SyncProvider.none } = Option.none :=
  ⟨(pullAbsent_leavesLibraryUntouched
      { app0 with syncState := { syncPublic with provider := SyncProvider.none } }
      true PullResult.absent 42 (Or.inl rfl)).1,
   (pullAbsent_leavesLibraryUntouched
      { app0 with syncState := { syncPublic with provider := SyncProvider.none } }
      true PullResult.absent 42 (Or.inl rfl)).2.2.2.2.2 rfl⟩

/-- Claim C10: when the provider routing makes neither push branch fire —
provider `none`, or `github` without a truthy token and gist id, or `public`
without a truthy room id — `persistLibrary` issues no push request at all and
still stamps `lastSynced` with the current time, whatever the (unconsulted)
push outcome would have been. -/
theorem lastSynced_stamped_without_push (s : AppState) (bs : List Book)
    (res : PushResult) (now : Nat)
    (h : pushRequestOf s.syncState bs = Option.none) :
    (persistLibrary s bs res now).request = Option.none ∧
    (persistLibrary s bs res now).state.syncState.lastSynced = Option.some now ∧
    (persistLibrary s bs res now).state.books = s.books := by
  simp [persistLibrary, h]

/-- Witness for C10: pushing on the `none` provider records a sync timestamp
without any remote write. -/
theorem lastSynced_stamped_without_push_witness :
    (persistLibrary
        { app0 with syncState := { syncPublic with provider := SyncProvider.none } }
        [] PushResult.netError 7).request = Option.none ∧
    (persistLibrary
        { app0 with syncState := { syncPublic with provider := SyncProvider.none } }
        [] PushResult.netError 7).state.syncState.lastSynced = Option.some 7 :=
  ⟨(lastSynced_stamped_without_push
      { app0 with syncState := { syncPublic with provider := SyncProvider.none } }
      [] PushResult.netError 7 rfl).1,
   (lastSynced_stamped_without_push
      { app0 with syncState := { syncPublic with provider := SyncProvider.none } }
      [] PushResult.netError 7 rfl).2.1⟩

/-- Counterexample to claim C4 as stated: a push against the github provider
(with truthy credentials, so the push really is issued) that fails with
`UNAUTHORIZED` leaves the active provider at `github` — the push path does
not downgrade it to `none`. -/
theorem pushUnauthorized_keepsProvider_cex :
    (persistLibrary { app0 with syncState := syncGithub } [] PushResult.unauthorized
        7).request ≠ Option.none ∧
    (persistLibrary { app0 with syncState := syncGithub } [] PushResult.unauthorized
        7).state.syncState.provider = SyncProvider.github ∧
    SyncProvider.github ≠ SyncProvider.none := by
  refine ⟨?_, rfl, ?_⟩ <;> decide

/-- Claim C4 as amended: a pull that fails with `UNAUTHORIZED` downgrades the
active provider to `none` (surfaced only as a console warning), while a push
that fails with `UNAUTHORIZED` leaves the provider unchanged and surfaces the
reconnect requirement by firing the alert and reopening the sync modal. -/
theorem unauthorized_pull_downgrades_push_prompts (s : AppState) (silent : Bool)
    (now : Nat) (bs : List Book) (r : PullReq) (pr : PushReq)
    (hr : pullRequestOf s.syncState = Option.some r)
    (hpr : pushRequestOf s.syncState bs = Option.some pr) :
    (refreshLibrary s silent PullResult.unauthorized now).fst.syncState.provider
      = SyncProvider.none ∧
    (persistLibrary s bs PushResult.unauthorized now).state.syncState.provider
      = s.syncState.provider ∧
    (persistLibrary s bs PushResult.unauthorized now).state.showSyncModal = true ∧
    (persistLibrary s bs PushResult.unauthorized now).alerted = true := by
  cases silent <;>
    simp [refreshLibrary, refreshStart, refreshComplete, persistLibrary, hr, hpr]

/-- Witness for the amended C4 on the github provider with live credentials. -/
theorem unauthorized_pull_downgrades_push_prompts_witness :
    (refreshLibrary { app0 with syncState := syncGithub } false
        PullResult.unauthorized 7).fst.syncState.provider = SyncProvider.none ∧
    (persistLibrary { app0 with syncState := syncGithub } [] PushResult.unauthorized
        7).state.showSyncModal = true :=
  ⟨(unauthorized_pull_downgrades_push_prompts { app0 with syncState := syncGithub }
      false 7 [] (PullReq.gitHub "tok" "gist1") (PushReq.gitHub [] "tok" "gist1")
      (by decide) (by decide)).1,
   (unauthorized_pull_downgrades_push_prompts { app0 with syncState := syncGithub }
      false 7 [] (PullReq.gitHub "tok" "gist1") (PushReq.gitHub [] "tok" "gist1")
      (by decide) (by decide)).2.2.1⟩

/-- A remote snapshot used to exhibit the stale-pull overwrite. -/
def staleBook : Book :=
  { id := "old", title := "purani", author := "koi" }

/-- Counterexample to claim C5 as stated: a pull is issued under the public
provider; before it completes, a reconfiguration switches the provider to
`none`; the completing pull still replaces the book list with its (now stale)
snapshot instead of discarding it. -/
theorem staleResponse_overwrites_cex :
    (refreshStart app0 false).snd ≠ Option.none ∧
    (handleSyncUpdate (refreshStart app0 false).fst
        { provider := Option.some SyncProvider.none }).fst.syncState.provider
      = SyncProvider.none ∧
    (refreshComplete
        (handleSyncUpdate (refreshStart app0 false).fst
          { provider := Option.some SyncProvider.none }).fst
        (refreshStart app0 false).snd (PullResult.present [staleBook]) 9).books
      = [staleBook] ∧
    (handleSyncUpdate (refreshStart app0 false).fst
        { provider := Option.some SyncProvider.none }).fst.books ≠ [staleBook] := by
  refine ⟨?_, rfl, ?_, ?_⟩ <;> decide

/-- Claim C5 as amended: the pull continuation performs no stale-response
check — whenever a request was issued and returns a snapshot, the completing
pull replaces the book list wholesale, stamps `lastSynced` and sets the
loaded flag on whatever component state it finds, regardless of any provider
or room change since the request was issued. -/
theorem pullCompletion_unconditional (s : AppState) (r : PullReq)
    (bs : List Book) (now : Nat) :
    (refreshComplete s (Option.some r) (PullResult.present bs) now).books = bs ∧
    (refreshComplete s (Option.some r) (PullResult.present bs) now).syncState.lastSynced
      = Option.some now ∧
    (refreshComplete s (Option.some r) (PullResult.present bs) now).hasLoadedInitially
      = true := by
  simp [refreshComplete]

/-- An app state with a pull already in flight on the public provider. -/
def inflight : AppState :=
  { app0 with syncState := { syncPublic with isSyncing := true } }

/-- Counterexample to claim C6 as stated: with `isSyncing` already set, a
newly scheduled (interval, hence silent) pull still issues a request to the
storage provider — nothing suppresses it. -/
theorem inflightPull_notSuppressed_cex :
    inflight.syncState.isSyncing = true ∧
    (refreshStart inflight true).snd ≠ Option.none := by
  refine ⟨rfl, ?_⟩; decide

/-- Claim C6 as amended: `refreshLibrary` performs no in-flight check — the
request it issues is computed from provider, credentials and room alone, and
is entirely independent of `isSyncing`, which only drives the UI spinner. -/
theorem pullRequest_ignores_inflight_flag (s : AppState) (silent : Bool) (b : Bool) :
    (refreshStart s silent).snd = pullRequestOf s.syncState ∧
    pullRequestOf { s.syncState with isSyncing := b } = pullRequestOf s.syncState := by
  exact ⟨rfl, by simp [pullRequestOf]⟩

/-- Counterexample to claim C8 as stated: reconfiguring the provider while a
sync timestamp is recorded leaves `lastSynced` exactly as it was — the
library is not marked never-synced. -/
theorem reconfig_keepsLastSynced_cex :
    (handleSyncUpdate
        { app0 with syncState := { syncPublic with lastSynced := Option.some 5 } }
        { provider := Option.some SyncProvider.github }).fst.syncState.lastSynced
      = Option.some 5 ∧
    (Option.some 5 : Option Nat) ≠ Option.none := by
  refine ⟨rfl, ?_⟩; decide

/-- Claim C8 as amended: every reconfiguration merges the patch into the
sync state, persists the merged provider (always) and room id (when truthy)
to local storage, stores or removes token and gist id by truthiness, closes
the modal, resets the initial-load flag `hasLoadedInitially` — not the
last-synchronized timestamp, which survives the merge — and schedules an
immediate pull. -/
theorem handleSyncUpdate_reconfig (s : AppState) (p : SyncStatePatch) :
    (handleSyncUpdate s p).fst.syncState = applyPatch s.syncState p ∧
    (handleSyncUpdate s p).fst.store.sync_provider
      = Option.some (providerKey (applyPatch s.syncState p).provider) ∧
    (truthy (applyPatch s.syncState p).roomId = true →
      (handleSyncUpdate s p).fst.store.sync_room_id
        = (applyPatch s.syncState p).roomId) ∧
    (truthy (applyPatch s.syncState p).roomId = false →
      (handleSyncUpdate s p).fst.store.sync_room_id = s.store.sync_room_id) ∧
    (handleSyncUpdate s p).fst.store.sync_github_token
      = (if truthy (applyPatch s.syncState p).githubToken then
          (applyPatch s.syncState p).githubToken else Option.none) ∧
    (handleSyncUpdate s p).fst.store.sync_gist_id
      = (if truthy (applyPatch s.syncState p).gistId then
          (applyPatch s.syncState p).gistId else Option.none) ∧
    (handleSyncUpdate s p).fst.hasLoadedInitially = false ∧
    (handleSyncUpdate s p).fst.showSyncModal = false ∧
    (handleSyncUpdate s p).fst.books = s.books ∧
    (handleSyncUpdate s p).snd = true := by
  simp only [handleSyncUpdate]
  split_ifs <;> simp_all

/-- Witness for the amended C8: switching to the github provider with a new
token persists the provider and token, keeps the old timestamp, and
schedules a pull. -/
theorem handleSyncUpdate_reconfig_witness :
    (handleSyncUpdate
        { app0 with syncState := { syncPublic with lastSynced := Option.some 5 } }
        { provider := Option.some SyncProvider.github,
          githubToken := Option.some (Option.some "tok2") }).fst.store.sync_room_id
      = Option.some "dastan_internal_shared_v2_9912" ∧
    (handleSyncUpdate
        { app0 with syncState := { syncPublic with lastSynced := Option.some 5 } }
        { provider := Option.some SyncProvider.github,
          githubToken := Option.some (Option.some "tok2") }).snd = true :=
  ⟨(handleSyncUpdate_reconfig
      { app0 with syncState := { syncPublic with lastSynced := Option.some 5 } }
      { provider := Option.some SyncProvider.github,
        githubToken := Option.some (Option.some "tok2") }).2.2.1 (by decide),
   (handleSyncUpdate_reconfig
      { app0 with syncState := { syncPublic with lastSynced := Option.some 5 } }
      { provider := Option.some SyncProvider.github,
        githubToken := Option.some (Option.some "tok2") }).2.2.2.2.2.2.2.2.2⟩

/-- A map whose function fixes every element of the list is the identity. -/
theorem map_self_of_mem {α : Type} (f : α → α) (l : List α)
    (h : ∀ x ∈ l, f x = x) : l.map f = l := by
  induction l with
  | nil => rfl
  | cons a t ih =>
    simp only [List.map_cons, h a (by simp)]
    rw [ih fun x hx => h x (by simp [hx])]

/-- When no chapter of the list carries the target id, `attachChapters` is
the identity. -/
theorem attachChapters_id (chs : List Chapter) (chId url : String)
    (h : ∀ c ∈ chs, c.id ≠ chId) : attachChapters chs chId url = chs := by
  apply map_self_of_mem
  intro c hc
  simp [h c hc]

/-- Claim C7: the attach-audio mutation works purely by identity match. When
no book is selected, or no book carries the selected id, or the matching
books contain no chapter with the target id, the book list is returned
unchanged (a no-op, not an error); position for position, books whose id
differs from the selection are untouched, a book with the matching id has
exactly its chapters rewritten through `attachChapters`, and inside a chapter
list only the chapter with the matching id gains the audio reference while
every other chapter is untouched. -/
theorem attachAudio_byIdentity (books : List Book) (sel : Option Book)
    (chId url : String) :
    ((∀ sb, sel = Option.some sb → ∀ b ∈ books, b.id = sb.id →
        ∀ c ∈ b.chapters, c.id ≠ chId) →
      attachAudioBooks books sel chId url = books) ∧
    (attachAudioBooks books sel chId url).length = books.length ∧
    (∀ sb, sel = Option.some sb → ∀ i : Nat, ∀ b : Book,
      books[i]? = Option.some b →
      (b.id ≠ sb.id →
        (attachAudioBooks books sel chId url)[i]? = Option.some b) ∧
      (b.id = sb.id →
        (attachAudioBooks books sel chId url)[i]?
          = Option.some { b with chapters := attachChapters b.chapters chId url })) ∧
    (∀ chs : List Chapter, ∀ j : Nat, ∀ c : Chapter,
      chs[j]? = Option.some c →
      (c.id ≠ chId → (attachChapters chs chId url)[j]? = Option.some c) ∧
      (c.id = chId → (attachChapters chs chId url)[j]?
          = Option.some { c with audioUrl := Option.some url })) := by
  refine ⟨?_, ?_, ?_, ?_⟩
  · intro h
    cases hsel : sel with
    | none => simp [attachAudioBooks]
    | some sb =>
      apply map_self_of_mem
      intro b hb
      dsimp only
      by_cases hid : b.id = sb.id
      · rw [if_pos hid, attachChapters_id b.chapters chId url (h sb hsel b hb hid)]
      · simp [hid]
  · cases sel <;> simp [attachAudioBooks]
  · intro sb hsel i b hb
    subst hsel
    constructor
    · intro hid
      simp [attachAudioBooks, List.getElem?_map, hb, hid]
    · intro hid
      simp [attachAudioBooks, List.getElem?_map, hb, hid]
  · intro chs j c hc
    constructor
    · intro hid
      simp [attachChapters, List.getElem?_map, hc, hid]
    · intro hid
      simp [attachChapters, List.getElem?_map, hc, hid]

/-- A book with one audio-free chapter, for the C7 witness. -/
def bookB : Book :=
  { id := "b1", title := "kitab", author := "adeeb", chapters := [freshChapter] }

/-- Witness for C7: attaching to a chapter id absent from the selected book
is a no-op, and attaching to the present chapter id rewrites only that
chapter. -/
theorem attachAudio_byIdentity_witness :
    attachAudioBooks [bookB] (Option.some bookB) "missing" "u" = [bookB] ∧
    (attachChapters [freshChapter] "c2" "u")[0]?
      = Option.some { freshChapter with audioUrl := Option.some "u" } :=
  ⟨(attachAudio_byIdentity [bookB] (Option.some bookB) "missing" "u").1 (by decide),
   ((attachAudio_byIdentity [bookB] (Option.some bookB) "c2" "u").2.2.2
      [freshChapter] 0 freshChapter (by decide)).2 (by decide)⟩

end Dastan
